import Mathlib

/-! A shallow embedding of the ChemFlow chemical-injection prototype.

This file embeds the core state and operations of the chemical-injection
dashboard prototype (entity collections, the association rule engine
`validateAssociationCreation` / `validateToggleStatus`, the lifecycle
operations `handleAssociate` / `toggleStatus`, the consumption projection
`consumptionData`, and the advisory boundary `getSystemInsights`) and
proves the spec's properties about them.

Numbers (`capacity`, `currentVolume`, `maxRate`, `productionRate`,
`targetPpm`) are JavaScript `number`s in the source; they are modelled as
rationals.  JavaScript truthiness of a string (`!pumpId`) is emptiness of
the string.  `undefined` results of `Array.prototype.find` are modelled
with `Option` via `List.find?`.
-/

set_option autoImplicit false

namespace ChemFlow

/-- A chemical product of the catalog (`Product` in types.ts). -/
structure Product where
  id : String
  name : String
deriving DecidableEq

/-- A geographic site (`Site` in types.ts). -/
structure Site where
  id : String
  name : String
  location : String
deriving DecidableEq

/-- A chemical tank (`Tank` in types.ts); `chemicalType` is a product name. -/
structure Tank where
  id : String
  name : String
  siteId : String
  capacity : ℚ
  material : String
  currentVolume : ℚ
  lastUpdated : String
  chemicalType : String
deriving DecidableEq

/-- An injection pump mounted on a tank (`Pump` in types.ts). -/
structure Pump where
  id : String
  name : String
  tankId : String
  maxRate : ℚ
deriving DecidableEq

/-- A producing well (`Well` in types.ts). -/
structure Well where
  id : String
  name : String
  siteId : String
  productionRate : ℚ
deriving DecidableEq

/-- The status of an association: `'ACTIVE' | 'INACTIVE'` in types.ts. -/
inductive AssocStatus where
  | ACTIVE
  | INACTIVE
deriving DecidableEq

/-- A tank–pump–well injection link (`Association` in types.ts). -/
structure Association where
  id : String
  wellId : String
  tankId : String
  pumpId : String
  targetPpm : ℚ
  status : AssocStatus
deriving DecidableEq

/-- The React component state of `App`: the five entity collections and the
association collection (the `useState` hooks of part_000 lines 98–102). -/
structure AppState where
  products : List Product
  sites : List Site
  tanks : List Tank
  pumps : List Pump
  wells : List Well
  associations : List Association
deriving DecidableEq

/-- The chemical types connected to a well through its existing associations:
`existingAssocs.map(a => tanks.find(t => t.id === a.tankId)).filter(t => t
!== undefined)` mapped to `chemicalType` (part_000 lines 114 and 119–120).
Associations whose `tankId` no longer resolves contribute nothing. -/
def wellChemicals (s : AppState) (wellId : String) : List String :=
  (((s.associations.filter (fun a => decide (a.wellId = wellId))).filterMap
    (fun a => s.tanks.find? (fun t => decide (t.id = a.tankId)))).map
      Tank.chemicalType)

/-- Source function `validateAssociationCreation` (part_000 lines 107–127): `Invalid
selection` when the well or tank does not resolve or `pumpId` is falsy
(the empty string); `Maximum 3 different chemicals allowed per well.` when
the distinct chemical types of the well's tanks together with the candidate
tank's chemical type number more than 3; `null` (accepted) otherwise. -/
def validateAssociationCreation (s : AppState) (wellId tankId pumpId : String) :
    Option String :=
  match s.wells.find? (fun w => decide (w.id = wellId)),
        s.tanks.find? (fun t => decide (t.id = tankId)) with
  | some _, some targetTank =>
    if pumpId = "" then some "Invalid selection"
    else if (wellChemicals s wellId ++ [targetTank.chemicalType]).dedup.length > 3 then
      some "Maximum 3 different chemicals allowed per well."
    else none
  | _, _ => some "Invalid selection"

/-- Source function `validateToggleStatus` (part_000 lines 129–152): toggling an `ACTIVE`
association off is always accepted; activating resolves the association's
tank (`Tank not found` when missing), collects the chemical types of the
other `ACTIVE` associations on the same well, and rejects with the safety
interlock message when `Product A` and `Product C` would run together. -/
def validateToggleStatus (s : AppState) (association : Association) :
    Option String :=
  if association.status = AssocStatus.ACTIVE then none
  else
    match s.tanks.find? (fun t => decide (t.id = association.tankId)) with
    | none => some "Tank not found"
    | some thisTank =>
      let thisChemical := thisTank.chemicalType
      let activeAssocs := s.associations.filter (fun a =>
        decide (a.wellId = association.wellId ∧ a.status = AssocStatus.ACTIVE ∧
          a.id ≠ association.id))
      let activeChemicals := activeAssocs.map (fun a =>
        (s.tanks.find? (fun t => decide (t.id = a.tankId))).map Tank.chemicalType)
      let hasA := some "Product A" ∈ activeChemicals ∨ thisChemical = "Product A"
      let hasC := some "Product C" ∈ activeChemicals ∨ thisChemical = "Product C"
      if hasA ∧ hasC then
        some "Safety Interlock: Cannot run Product A and Product C simultaneously on this well."
      else none

/-- The create request handled by `handleAssociate`: the selected well, tank
and pump ids and the target ppm of the form, together with the fresh id the
handler synthesizes from the clock. -/
structure CreateRequest where
  wellId : String
  tankId : String
  pumpId : String
  targetPpm : ℚ
  newId : String
deriving DecidableEq

/-- The association `handleAssociate` builds on acceptance (part_000 lines
588–595): the selected ids and ppm, with `status: 'INACTIVE'`. -/
def newAssociation (req : CreateRequest) : Association :=
  { id := req.newId
    wellId := req.wellId
    tankId := req.tankId
    pumpId := req.pumpId
    targetPpm := req.targetPpm
    status := AssocStatus.INACTIVE }

/-- Source handler `handleAssociate` (part_000 lines 578–601): validate the request; on a
validation error surface it and change nothing, otherwise append the new
`INACTIVE` association.  The returned pair is the state after the call and
the error surfaced to the user (`setError`); `none` means success. -/
def handleAssociate (s : AppState) (req : CreateRequest) :
    AppState × Option String :=
  match validateAssociationCreation s req.wellId req.tankId req.pumpId with
  | some err => (s, some err)
  | none =>
    ({ s with associations := s.associations ++ [newAssociation req] }, none)

/-- Source handler `toggleStatus` (part_000 lines 607–626): map over the associations; the
one matching `assocId` is activated after `validateToggleStatus` passes
(kept unchanged and the error surfaced otherwise) when `INACTIVE`, and
deactivated unconditionally when `ACTIVE`.  The second component is the
error state after the call: `setError(null)` first, then the last
`setError(validationErr)` raised inside the map, if any.

`toggleBody` is the arrow mapped over `prev` (part_000 lines 609–625): the
association matching `assocId` is validated and activated (or kept and the
error recorded) when `INACTIVE`, deactivated unconditionally when
`ACTIVE`; other associations pass through unchanged. -/
def toggleBody (s : AppState) (assocId : String) (a : Association) :
    Association × Option String :=
  if a.id = assocId then
    if a.status = AssocStatus.INACTIVE then
      match validateToggleStatus s a with
      | some err => (a, some err)
      | none => ({ a with status := AssocStatus.ACTIVE }, (none : Option String))
    else ({ a with status := AssocStatus.INACTIVE }, none)
  else (a, none)

/-- The full `toggleStatus` handler: map `toggleBody` over the current
associations, keep the mapped associations, and surface the last error the
map recorded (or `none`). -/
def toggleStatus (s : AppState) (assocId : String) :
    AppState × Option String :=
  let results := s.associations.map (toggleBody s assocId)
  ({ s with associations := results.map Prod.fst },
    (results.filterMap Prod.snd).getLast?)

/-- One bar of the consumption chart: a well's name and its estimated
consumption value. -/
structure ConsumptionPoint where
  name : String
  consumption : ℚ
deriving DecidableEq

/-- Display rounding `parseFloat(x.toFixed(2))`: rounding to two decimal places, modelled on
the rationals. -/
def round2 (x : ℚ) : ℚ := round (x * 100) / 100

/-- The estimated daily consumption of one well (part_000 lines 209–212):
`productionRate` times the ppm total of the well's `ACTIVE` associations,
divided by 10000; the ppm total is the source's `reduce` fold. -/
def estConsumption (s : AppState) (w : Well) : ℚ :=
  let wellAssocs := s.associations.filter (fun a =>
    decide (a.wellId = w.id ∧ a.status = AssocStatus.ACTIVE))
  let totalPpm := wellAssocs.foldl (fun acc curr => acc + curr.targetPpm) 0
  (w.productionRate * totalPpm) / 10000

/-- Source projection `consumptionData` (part_000 lines 207–218): one point per well, the
consumption rounded to two decimals for display. -/
def consumptionData (s : AppState) : List ConsumptionPoint :=
  s.wells.map (fun w => { name := w.name, consumption := round2 (estConsumption s w) })

/-- The fallback of `getSystemInsights` when the API credential is missing
(geminiService.ts line 19). -/
def insightsNoKeyFallback : String := "AI Insights unavailable. Please configure API_KEY."

/-- The fallback of `getSystemInsights` when the generation call throws
(geminiService.ts line 71). -/
def insightsErrorFallback : String := "Error generating insights. Please try again later."

/-- The fallback of `getSystemInsights` when the response carries no text
(geminiService.ts line 68). -/
def insightsEmptyFallback : String := "No insights generated."

/-- Source boundary `getSystemInsights` (geminiService.ts lines 13–73).  `apiKey` models
`process.env.API_KEY` (`none` for unset; the empty string is falsy too, so
both disable the client).  `callResult` models the outcome of the awaited
`ai.models.generateContent` call inside the `try`: `Except.error` is a
thrown transport/auth failure caught by the `catch`, `Except.ok` carries
`response.text` (`none`/`""` both falsy, yielding the empty fallback).
The snapshot arguments only feed the prompt and cannot fail. -/
def getSystemInsights (_tanks : List Tank) (_wells : List Well)
    (_associations : List Association) (apiKey : Option String)
    (callResult : Except String (Option String)) : String :=
  match apiKey with
  | none => insightsNoKeyFallback
  | some k =>
    if k = "" then insightsNoKeyFallback
    else
      match callResult with
      | Except.error _ => insightsErrorFallback
      | Except.ok responseText =>
        match responseText with
        | none => insightsEmptyFallback
        | some t => if t = "" then insightsEmptyFallback else t

/-! ## Fixtures

The mock data the prototype seeds its state with (part_000 lines 7–42),
with `lastUpdated` fixed to a constant timestamp, and a few variants used
as concrete instances below. -/

/-- Mock data `MOCK_SITES` (part_000 lines 7–10). -/
def MOCK_SITES : List Site :=
  [ { id := "S1", name := "Permian Alpha", location := "Texas" },
    { id := "S2", name := "Bakken Bravo", location := "North Dakota" } ]

/-- Mock data `INITIAL_PRODUCTS` (part_000 lines 12–19). -/
def INITIAL_PRODUCTS : List Product :=
  [ { id := "P1", name := "Product A" },
    { id := "P2", name := "Product B" },
    { id := "P3", name := "Product C" },
    { id := "P4", name := "Product D" },
    { id := "P5", name := "Corrosion Inhibitor" },
    { id := "P6", name := "Scale Inhibitor" } ]

/-- Mock data `INITIAL_TANKS` (part_000 lines 21–25). -/
def INITIAL_TANKS : List Tank :=
  [ { id := "T1", name := "TK-101", siteId := "S1", capacity := 2000,
      material := "Stainless Steel", currentVolume := 1200,
      lastUpdated := "2024-01-01T00:00:00.000Z", chemicalType := "Product A" },
    { id := "T2", name := "TK-102", siteId := "S1", capacity := 1500,
      material := "Polyethylene", currentVolume := 300,
      lastUpdated := "2024-01-01T00:00:00.000Z", chemicalType := "Corrosion Inhibitor" },
    { id := "T3", name := "TK-201", siteId := "S2", capacity := 5000,
      material := "Carbon Steel", currentVolume := 4500,
      lastUpdated := "2024-01-01T00:00:00.000Z", chemicalType := "Product C" } ]

/-- Mock data `INITIAL_PUMPS` (part_000 lines 27–31). -/
def INITIAL_PUMPS : List Pump :=
  [ { id := "PM1", name := "P-101-A", tankId := "T1", maxRate := 20 },
    { id := "PM2", name := "P-102-A", tankId := "T2", maxRate := 15 },
    { id := "PM3", name := "P-201-A", tankId := "T3", maxRate := 50 } ]

/-- Mock data `INITIAL_WELLS` (part_000 lines 33–37). -/
def INITIAL_WELLS : List Well :=
  [ { id := "W1", name := "Well-A1", siteId := "S1", productionRate := 500 },
    { id := "W2", name := "Well-A2", siteId := "S1", productionRate := 1200 },
    { id := "W3", name := "Well-B1", siteId := "S2", productionRate := 800 } ]

/-- Mock data `INITIAL_ASSOCS` (part_000 lines 39–42). -/
def INITIAL_ASSOCS : List Association :=
  [ { id := "A1", wellId := "W1", tankId := "T1", pumpId := "PM1",
      targetPpm := 150, status := AssocStatus.ACTIVE },
    { id := "A2", wellId := "W2", tankId := "T2", pumpId := "PM2",
      targetPpm := 50, status := AssocStatus.INACTIVE } ]

/-- The state the app starts in (part_000 lines 98–102). -/
def initialState : AppState :=
  { products := INITIAL_PRODUCTS
    sites := MOCK_SITES
    tanks := INITIAL_TANKS
    pumps := INITIAL_PUMPS
    wells := INITIAL_WELLS
    associations := INITIAL_ASSOCS }

/-- The initial state with a further `INACTIVE` Product C association on
well `W1`, which already runs Product A through `A1`. -/
def interlockState : AppState :=
  { initialState with
    associations := INITIAL_ASSOCS ++
      [ { id := "A3", wellId := "W1", tankId := "T3", pumpId := "PM3",
          targetPpm := 80, status := AssocStatus.INACTIVE } ] }

/-- A state whose well `W1` already carries three distinct chemical types:
Product A, Corrosion Inhibitor and Product C. -/
def threeChemState : AppState :=
  { initialState with
    associations :=
      [ { id := "A1", wellId := "W1", tankId := "T1", pumpId := "PM1",
          targetPpm := 150, status := AssocStatus.ACTIVE },
        { id := "A2", wellId := "W1", tankId := "T2", pumpId := "PM2",
          targetPpm := 50, status := AssocStatus.INACTIVE },
        { id := "A3", wellId := "W1", tankId := "T3", pumpId := "PM3",
          targetPpm := 80, status := AssocStatus.INACTIVE } ],
    tanks := INITIAL_TANKS ++
      [ { id := "T4", name := "TK-103", siteId := "S1", capacity := 1000,
          material := "Polyethylene", currentVolume := 900,
          lastUpdated := "2024-01-01T00:00:00.000Z", chemicalType := "Product D" } ] }

/-- The spec's consumption scenario: one well of production rate 500 with
two `ACTIVE` associations at 150 ppm and 50 ppm. -/
def consumptionState : AppState :=
  { initialState with
    wells := [ { id := "W1", name := "Well-A1", siteId := "S1", productionRate := 500 } ],
    associations :=
      [ { id := "A1", wellId := "W1", tankId := "T1", pumpId := "PM1",
          targetPpm := 150, status := AssocStatus.ACTIVE },
        { id := "A2", wellId := "W1", tankId := "T2", pumpId := "PM2",
          targetPpm := 50, status := AssocStatus.ACTIVE } ] }

/-- A state where well `W3` has an `ACTIVE` association whose tank has been
deleted (its `tankId` resolves to nothing) next to an `INACTIVE` Product C
association. -/
def danglingState : AppState :=
  { initialState with
    tanks := [ { id := "T3", name := "TK-201", siteId := "S2", capacity := 5000,
                 material := "Carbon Steel", currentVolume := 4500,
                 lastUpdated := "2024-01-01T00:00:00.000Z", chemicalType := "Product C" } ],
    associations :=
      [ { id := "A9", wellId := "W3", tankId := "T1", pumpId := "PM1",
          targetPpm := 40, status := AssocStatus.ACTIVE },
        { id := "A10", wellId := "W3", tankId := "T3", pumpId := "PM3",
          targetPpm := 60, status := AssocStatus.INACTIVE } ] }

/-- A create request routing tank `T2` to well `W1` through pump `PM1`. -/
def reqB1 : CreateRequest :=
  { wellId := "W1", tankId := "T2", pumpId := "PM1", targetPpm := 10, newId := "B1" }

/-- A create request routing tank `T1` to well `W2` through the same pump
`PM1`. -/
def reqB2 : CreateRequest :=
  { wellId := "W2", tankId := "T1", pumpId := "PM1", targetPpm := 20, newId := "B2" }

/-! ## Helper lemmas -/

/-- Appending one element changes the number of distinct elements exactly
when the element is new. -/
theorem dedup_length_append_singleton {α : Type} [DecidableEq α]
    (l : List α) (x : α) :
    (l ++ [x]).dedup.length =
      if x ∈ l then l.dedup.length else l.dedup.length + 1 := by
  rw [← List.card_toFinset, ← List.card_toFinset, List.toFinset_append]
  have hins : l.toFinset ∪ [x].toFinset = insert x l.toFinset := by
    simp [Finset.union_comm, Finset.insert_eq]
  rw [hins]
  by_cases hx : x ∈ l
  · rw [if_pos hx, Finset.card_insert_of_mem (List.mem_toFinset.mpr hx)]
  · rw [if_neg hx, Finset.card_insert_of_not_mem (fun hc => hx (List.mem_toFinset.mp hc))]

/-- A `reduce`-style fold of `targetPpm` equals the accumulator plus the
sum of the mapped list. -/
theorem foldl_add_targetPpm (l : List Association) (x : ℚ) :
    l.foldl (fun acc curr => acc + curr.targetPpm) x =
      x + (l.map Association.targetPpm).sum := by
  induction l generalizing x with
  | nil => simp
  | cons a l ih => simp [ih, add_assoc]

/-- Summing `targetPpm` over a filtered list equals summing the indicator
over the whole list. -/
theorem filter_targetPpm_sum (l : List Association) (p : Association → Prop)
    [DecidablePred p] :
    ((l.filter (fun a => decide (p a))).map Association.targetPpm).sum =
      (l.map (fun a => if p a then a.targetPpm else 0)).sum := by
  induction l with
  | nil => rfl
  | cons a l ih =>
    by_cases h : p a <;> simp [List.filter_cons, h, ih]

/-- Filtering out every element of a list with a constant-`none` map leaves
nothing. -/
theorem filterMap_const_none {α β : Type} (l : List α) :
    (l.filterMap (fun _ => (none : Option β))) = [] := by
  induction l with
  | nil => rfl
  | cons a l ih => simp [List.filterMap_cons, ih]

/-- Appending an association for a different well leaves another well's
connected chemical types unchanged. -/
theorem wellChemicals_append_other (s : AppState) (a : Association)
    (wellId : String) (hne : ¬ a.wellId = wellId) :
    wellChemicals { s with associations := s.associations ++ [a] } wellId =
      wellChemicals s wellId := by
  unfold wellChemicals
  rw [List.filter_append]
  have hnil : [a].filter (fun x => decide (x.wellId = wellId)) = [] := by
    simp [List.filter_cons, hne]
  rw [hnil, List.append_nil]

/-! ## Claims -/

/-- C1: if some `ACTIVE` association on a well draws from a tank holding
one of the two incompatible chemicals, then `validateToggleStatus` rejects
activating an `INACTIVE` association on the same well drawing the other
one, with the safety-interlock reason; stated symmetrically in the roles of
`Product A` and `Product C`. -/
theorem toggle_AC_exclusivity
    (s : AppState) (b a : Association) (tb ta : Tank)
    (hb : b.status = AssocStatus.INACTIVE)
    (hfb : s.tanks.find? (fun t => decide (t.id = b.tankId)) = some tb)
    (hamem : a ∈ s.associations)
    (hawell : a.wellId = b.wellId)
    (haact : a.status = AssocStatus.ACTIVE)
    (haid : a.id ≠ b.id)
    (hfa : s.tanks.find? (fun t => decide (t.id = a.tankId)) = some ta)
    (hchem : (ta.chemicalType = "Product A" ∧ tb.chemicalType = "Product C") ∨
             (ta.chemicalType = "Product C" ∧ tb.chemicalType = "Product A")) :
    validateToggleStatus s b =
      some "Safety Interlock: Cannot run Product A and Product C simultaneously on this well." := by
  have hbne : ¬ b.status = AssocStatus.ACTIVE := by rw [hb]; exact fun h => by cases h
  have hmem : some ta.chemicalType ∈
      ((s.associations.filter (fun x =>
        decide (x.wellId = b.wellId ∧ x.status = AssocStatus.ACTIVE ∧ x.id ≠ b.id))).map
          (fun x => (s.tanks.find? (fun t => decide (t.id = x.tankId))).map Tank.chemicalType)) := by
    refine List.mem_map.mpr ⟨a, ?_, ?_⟩
    · exact List.mem_filter.mpr ⟨hamem, by simp [hawell, haact, haid]⟩
    · rw [hfa]; rfl
  unfold validateToggleStatus
  rw [if_neg hbne, hfb]
  simp only []
  rw [if_pos]
  rcases hchem with ⟨hA, hC⟩ | ⟨hC, hA⟩
  · exact ⟨Or.inl (hA ▸ hmem), Or.inr hC⟩
  · exact ⟨Or.inr hA, Or.inl (hC ▸ hmem)⟩

/-- C1 witness: in `interlockState`, well `W1` runs Product A through the
`ACTIVE` association `A1`, and activating the `INACTIVE` Product C
association `A3` is rejected with the interlock reason. -/
theorem toggle_AC_exclusivity_witness :
    validateToggleStatus interlockState
      { id := "A3", wellId := "W1", tankId := "T3", pumpId := "PM3",
        targetPpm := 80, status := AssocStatus.INACTIVE } =
      some "Safety Interlock: Cannot run Product A and Product C simultaneously on this well." :=
  toggle_AC_exclusivity interlockState _
    { id := "A1", wellId := "W1", tankId := "T1", pumpId := "PM1",
      targetPpm := 150, status := AssocStatus.ACTIVE }
    { id := "T3", name := "TK-201", siteId := "S2", capacity := 5000,
      material := "Carbon Steel", currentVolume := 4500,
      lastUpdated := "2024-01-01T00:00:00.000Z", chemicalType := "Product C" }
    { id := "T1", name := "TK-101", siteId := "S1", capacity := 2000,
      material := "Stainless Steel", currentVolume := 1200,
      lastUpdated := "2024-01-01T00:00:00.000Z", chemicalType := "Product A" }
    (by decide) (by decide) (by decide) (by decide) (by decide) (by decide)
    (by decide) (Or.inl (by exact ⟨rfl, rfl⟩))

/-- C2 counterexample: well `W1` of the initial state carries exactly one
distinct chemical type (`k = 1 ≤ 3`), tank `T2` introduces a second
distinct one, and the create validation accepts instead of rejecting with
the `TooManyChemicals` reason. -/
theorem create_second_chemical_accepted :
    (wellChemicals initialState "W1").dedup.length = 1 ∧
    "Corrosion Inhibitor" ∉ wellChemicals initialState "W1" ∧
    (initialState.tanks.find? (fun t => decide (t.id = "T2"))).map Tank.chemicalType =
      some "Corrosion Inhibitor" ∧
    validateAssociationCreation initialState "W1" "T2" "PM2" = none :=
  ⟨by decide, by decide, by decide, by decide⟩

/-- C2 (amended): for a create request whose well and tank resolve and
whose pumpId is non-empty, if the well already carries exactly 3 distinct
chemical types (through associations whose tanks resolve) and the candidate
tank's chemical type is not among them, the request is rejected with the
`TooManyChemicals` reason; and whenever the candidate tank's chemical type
is already present on a well carrying at most 3 distinct types, the request
is accepted. -/
theorem create_diversity_cap
    (s : AppState) (wellId tankId pumpId : String) (w : Well) (t : Tank)
    (hw : s.wells.find? (fun x => decide (x.id = wellId)) = some w)
    (ht : s.tanks.find? (fun x => decide (x.id = tankId)) = some t)
    (hp : pumpId ≠ "") :
    ((wellChemicals s wellId).toFinset.card = 3 →
      t.chemicalType ∉ wellChemicals s wellId →
      validateAssociationCreation s wellId tankId pumpId =
        some "Maximum 3 different chemicals allowed per well.") ∧
    (t.chemicalType ∈ wellChemicals s wellId →
      (wellChemicals s wellId).toFinset.card ≤ 3 →
      validateAssociationCreation s wellId tankId pumpId = none) := by
  have hcard : (wellChemicals s wellId).dedup.length =
      (wellChemicals s wellId).toFinset.card :=
    (List.card_toFinset _).symm
  constructor
  · intro h3 hnot
    unfold validateAssociationCreation
    rw [hw, ht]
    simp only []
    rw [if_neg hp, if_pos]
    rw [dedup_length_append_singleton, if_neg hnot, hcard, h3]
    omega
  · intro hin hle
    unfold validateAssociationCreation
    rw [hw, ht]
    simp only []
    rw [if_neg hp, if_neg]
    rw [dedup_length_append_singleton, if_pos hin, hcard]
    omega

/-- C2 witness: well `W1` of `threeChemState` carries the three distinct
chemical types Product A, Corrosion Inhibitor and Product C; creating with
tank `T4` (Product D, a fourth type) is rejected with the cap reason, while
creating with tank `T1` (Product A, already present) is accepted. -/
theorem create_diversity_cap_witness :
    validateAssociationCreation threeChemState "W1" "T4" "PM1" =
      some "Maximum 3 different chemicals allowed per well." ∧
    validateAssociationCreation threeChemState "W1" "T1" "PM1" = none :=
  ⟨(create_diversity_cap threeChemState "W1" "T4" "PM1"
      { id := "W1", name := "Well-A1", siteId := "S1", productionRate := 500 }
      { id := "T4", name := "TK-103", siteId := "S1", capacity := 1000,
        material := "Polyethylene", currentVolume := 900,
        lastUpdated := "2024-01-01T00:00:00.000Z", chemicalType := "Product D" }
      (by decide) (by decide) (by decide)).1 (by decide) (by decide),
   (create_diversity_cap threeChemState "W1" "T1" "PM1"
      { id := "W1", name := "Well-A1", siteId := "S1", productionRate := 500 }
      { id := "T1", name := "TK-101", siteId := "S1", capacity := 2000,
        material := "Stainless Steel", currentVolume := 1200,
        lastUpdated := "2024-01-01T00:00:00.000Z", chemicalType := "Product A" }
      (by decide) (by decide) (by decide)).2 (by decide) (by decide)⟩

/-- C3 counterexample: with well `W1` and tank `T1` both resolving and the
whitespace-only (blank but non-empty) pumpId `" "`, the create validation
accepts instead of rejecting with `Invalid selection`. -/
theorem create_blank_pumpId_accepted :
    validateAssociationCreation initialState "W1" "T1" " " = none ∧
    (" " : String) ≠ "" ∧
    (initialState.wells.find? (fun w => decide (w.id = "W1"))).isSome = true ∧
    (initialState.tanks.find? (fun t => decide (t.id = "T1"))).isSome = true :=
  ⟨by decide, by decide, by decide, by decide⟩

/-- C3 (amended): `validateAssociationCreation` returns the
`Invalid selection` rejection iff the well does not resolve, or the tank
does not resolve, or the pumpId is the empty string (string falsiness in
the source; a whitespace-only pumpId is truthy and passes). -/
theorem create_invalidSelection_iff
    (s : AppState) (wellId tankId pumpId : String) :
    validateAssociationCreation s wellId tankId pumpId = some "Invalid selection" ↔
      s.wells.find? (fun w => decide (w.id = wellId)) = none ∨
      s.tanks.find? (fun t => decide (t.id = tankId)) = none ∨
      pumpId = "" := by
  cases hw : s.wells.find? (fun w => decide (w.id = wellId)) with
  | none => simp [validateAssociationCreation, hw]
  | some w =>
    cases ht : s.tanks.find? (fun t => decide (t.id = tankId)) with
    | none => simp [validateAssociationCreation, hw, ht]
    | some t =>
      by_cases hp : pumpId = ""
      · simp [validateAssociationCreation, hw, ht, hp]
      · simp only [validateAssociationCreation, hw, ht, if_neg hp]
        constructor
        · intro h
          split at h
          · exact absurd (Option.some.inj h) (by decide)
          · exact absurd h (by simp)
        · intro h
          rcases h with h | h | h
          · cases h
          · cases h
          · exact absurd h hp

/-- C3 witness: a create request naming a well id that resolves to nothing
is rejected with `Invalid selection`. -/
theorem create_invalidSelection_iff_witness :
    validateAssociationCreation initialState "W9" "T1" "PM1" = some "Invalid selection" :=
  (create_invalidSelection_iff initialState "W9" "T1" "PM1").mpr (Or.inl (by decide))

/-- C4: whenever `handleAssociate` succeeds, the state it commits is the old
one with exactly one association appended, and that association is
`INACTIVE` whatever the request was. -/
theorem handleAssociate_creates_inactive (s : AppState) (req : CreateRequest)
    (h : (handleAssociate s req).snd = none) :
    (handleAssociate s req).fst.associations =
      s.associations ++ [newAssociation req] ∧
    (newAssociation req).status = AssocStatus.INACTIVE := by
  cases hv : validateAssociationCreation s req.wellId req.tankId req.pumpId with
  | some err =>
    exfalso
    unfold handleAssociate at h
    rw [hv] at h
    cases h
  | none =>
    unfold handleAssociate
    rw [hv]
    exact ⟨rfl, rfl⟩

/-- C4 witness: creating an association of well `W1` with tank `T2` and
pump `PM2` in the initial state succeeds and commits an `INACTIVE`
association. -/
theorem handleAssociate_creates_inactive_witness :
    (handleAssociate initialState
      { wellId := "W1", tankId := "T2", pumpId := "PM2",
        targetPpm := 100, newId := "A100" }).fst.associations =
      initialState.associations ++
        [newAssociation
          { wellId := "W1", tankId := "T2", pumpId := "PM2",
            targetPpm := 100, newId := "A100" }] ∧
    (newAssociation
      { wellId := "W1", tankId := "T2", pumpId := "PM2",
        targetPpm := 100, newId := "A100" }).status = AssocStatus.INACTIVE :=
  handleAssociate_creates_inactive initialState _ (by decide)

/-- C5: toggling an association whose occurrences under the given id are
all `ACTIVE` deactivates them unconditionally and surfaces no rejection,
whatever the surrounding collections hold. -/
theorem toggleStatus_deactivation (s : AppState) (assocId : String)
    (h : ∀ a ∈ s.associations, a.id = assocId → a.status = AssocStatus.ACTIVE) :
    toggleStatus s assocId =
      ({ s with associations := s.associations.map (fun a =>
          if a.id = assocId then { a with status := AssocStatus.INACTIVE } else a) },
        none) := by
  have hcong : s.associations.map (toggleBody s assocId) =
      s.associations.map (fun a =>
        ((if a.id = assocId then { a with status := AssocStatus.INACTIVE } else a),
          (none : Option String))) := by
    apply List.map_congr_left
    intro a ha
    by_cases hid : a.id = assocId
    · have hact := h a ha hid
      have hne : ¬ a.status = AssocStatus.INACTIVE := by
        rw [hact]; exact fun hc => by cases hc
      simp [toggleBody, hid, hne]
    · simp [toggleBody, hid]
  have hfst : (s.associations.map (toggleBody s assocId)).map Prod.fst =
      s.associations.map (fun a =>
        if a.id = assocId then { a with status := AssocStatus.INACTIVE } else a) := by
    rw [hcong, List.map_map]
    rfl
  have hsnd : (s.associations.map (toggleBody s assocId)).filterMap Prod.snd = [] := by
    rw [hcong, List.filterMap_map]
    exact filterMap_const_none _
  simp only [toggleStatus]
  rw [hfst, hsnd]
  rfl

/-- C5 witness: toggling the `ACTIVE` association `A1` of the initial state
deactivates it and surfaces no rejection. -/
theorem toggleStatus_deactivation_witness :
    toggleStatus initialState "A1" =
      ({ initialState with
         associations := initialState.associations.map (fun a =>
           if a.id = "A1" then { a with status := AssocStatus.INACTIVE } else a) },
        none) :=
  toggleStatus_deactivation initialState "A1" (by decide)

/-- When `toggleBody` records an error, it keeps its association unchanged. -/
theorem toggleBody_snd_some (s : AppState) (assocId : String)
    (a : Association) (err : String)
    (h : (toggleBody s assocId a).snd = some err) :
    toggleBody s assocId a = (a, some err) := by
  unfold toggleBody at h ⊢
  by_cases hid : a.id = assocId
  · rw [if_pos hid] at h ⊢
    by_cases hst : a.status = AssocStatus.INACTIVE
    · rw [if_pos hst] at h ⊢
      cases hv : validateToggleStatus s a with
      | some e =>
        rw [hv] at h
        have h' : some e = some err := h
        cases h'
        rfl
      | none =>
        rw [hv] at h
        exact Option.noConfusion h
    · rw [if_neg hst] at h
      exact Option.noConfusion h
  · rw [if_neg hid] at h
    exact Option.noConfusion h

/-- If at most one association matches the toggled id and the toggle
records an error, the mapped associations are unchanged. -/
theorem toggle_reject_aux (s : AppState) (assocId : String) :
    ∀ l : List Association,
      l.countP (fun a => decide (a.id = assocId)) ≤ 1 →
      ∀ err : String,
        ((l.map (toggleBody s assocId)).filterMap Prod.snd).getLast? = some err →
        (l.map (toggleBody s assocId)).map Prod.fst = l := by
  intro l
  induction l with
  | nil => intro _ err herr; cases herr
  | cons a l ih =>
    intro hcount err herr
    by_cases hid : a.id = assocId
    · have hc0 : l.countP (fun x => decide (x.id = assocId)) = 0 := by
        rw [List.countP_cons] at hcount
        have hone : (if (fun x => decide (x.id = assocId)) a then 1 else 0) = 1 :=
          if_pos (by simp [hid])
        rw [hone] at hcount
        omega
      have hall : ∀ b ∈ l, ¬ b.id = assocId := by
        intro b hb
        have := List.countP_eq_zero.mp hc0 b hb
        simpa using this
      have htail : l.map (toggleBody s assocId) =
          l.map (fun b => (b, (none : Option String))) :=
        List.map_congr_left (fun b hb => by simp [toggleBody, hall b hb])
      have htailsnd : (l.map (toggleBody s assocId)).filterMap Prod.snd = [] := by
        rw [htail, List.filterMap_map]
        exact filterMap_const_none _
      have htailfst : (l.map (toggleBody s assocId)).map Prod.fst = l := by
        rw [htail, List.map_map]
        exact List.map_id _
      rw [List.map_cons, List.filterMap_cons] at herr
      cases hsnd : (toggleBody s assocId a).snd with
      | none =>
        rw [hsnd, htailsnd] at herr
        cases herr
      | some e =>
        have hbody := toggleBody_snd_some s assocId a e hsnd
        rw [List.map_cons, List.map_cons, htailfst, hbody]
    · have hcount' : l.countP (fun x => decide (x.id = assocId)) ≤ 1 := by
        rw [List.countP_cons] at hcount
        omega
      have hbody : toggleBody s assocId a = (a, none) := by
        simp [toggleBody, hid]
      rw [List.map_cons, List.filterMap_cons, hbody] at herr
      simp only [] at herr
      rw [List.map_cons, List.map_cons, hbody, ih hcount' err herr]

/-- C6: a rejected create and a rejected toggle (of an id with at most one
matching association) leave the whole state — all five entity collections
and the association collection — exactly as before the call, with the
rejection reason as the only communicated effect. -/
theorem no_mutation_on_rejection (s : AppState) :
    (∀ (req : CreateRequest) (err : String),
      (handleAssociate s req).snd = some err →
        handleAssociate s req = (s, some err)) ∧
    (∀ (assocId : String) (err : String),
      s.associations.countP (fun a => decide (a.id = assocId)) ≤ 1 →
      (toggleStatus s assocId).snd = some err →
        toggleStatus s assocId = (s, some err)) := by
  constructor
  · intro req err h
    cases hv : validateAssociationCreation s req.wellId req.tankId req.pumpId with
    | some e =>
      unfold handleAssociate at h ⊢
      rw [hv] at h ⊢
      cases h
      rfl
    | none =>
      unfold handleAssociate at h
      rw [hv] at h
      cases h
  · intro assocId err hcount h
    have hsnd : ((s.associations.map (toggleBody s assocId)).filterMap
        Prod.snd).getLast? = some err := by
      simpa [toggleStatus] using h
    have hfst := toggle_reject_aux s assocId s.associations hcount err hsnd
    simp only [toggleStatus]
    rw [hfst, hsnd]

/-- C6 witness: in the interlock state, the create request naming an
unknown well is rejected and changes nothing, and toggling the Product C
association `A3` (blocked by the interlock) is rejected and changes
nothing. -/
theorem no_mutation_on_rejection_witness :
    handleAssociate interlockState
      { wellId := "W9", tankId := "T1", pumpId := "PM1",
        targetPpm := 100, newId := "A100" } =
      (interlockState, some "Invalid selection") ∧
    toggleStatus interlockState "A3" =
      (interlockState,
        some "Safety Interlock: Cannot run Product A and Product C simultaneously on this well.") :=
  ⟨(no_mutation_on_rejection interlockState).1
      { wellId := "W9", tankId := "T1", pumpId := "PM1",
        targetPpm := 100, newId := "A100" } "Invalid selection" (by decide),
   (no_mutation_on_rejection interlockState).2 "A3"
      "Safety Interlock: Cannot run Product A and Product C simultaneously on this well."
      (by decide) (by decide)⟩

/-- A create request whose entities resolve, whose pumpId is non-empty and
whose resulting distinct-chemical count stays within 3 is accepted. -/
theorem validateAssociationCreation_accepts
    (s : AppState) (wellId tankId pumpId : String) (w : Well) (t : Tank)
    (hw : s.wells.find? (fun x => decide (x.id = wellId)) = some w)
    (ht : s.tanks.find? (fun x => decide (x.id = tankId)) = some t)
    (hp : ¬ pumpId = "")
    (hdiv : (wellChemicals s wellId ++ [t.chemicalType]).dedup.length ≤ 3) :
    validateAssociationCreation s wellId tankId pumpId = none := by
  unfold validateAssociationCreation
  rw [hw, ht]
  simp only []
  rw [if_neg hp, if_neg]
  omega

/-- C7: no uniqueness constraint exists on pumps — two create requests
sharing one non-empty pumpId but naming different wells, each resolving its
entities and respecting the chemical-diversity cap, are both accepted in
sequence and both associations are committed. -/
theorem pump_sharing_permitted
    (s : AppState) (req1 req2 : CreateRequest) (w1 w2 : Well) (t1 t2 : Tank)
    (hw1 : s.wells.find? (fun x => decide (x.id = req1.wellId)) = some w1)
    (hw2 : s.wells.find? (fun x => decide (x.id = req2.wellId)) = some w2)
    (ht1 : s.tanks.find? (fun x => decide (x.id = req1.tankId)) = some t1)
    (ht2 : s.tanks.find? (fun x => decide (x.id = req2.tankId)) = some t2)
    (hpump : req2.pumpId = req1.pumpId)
    (hp : ¬ req1.pumpId = "")
    (hwne : ¬ req1.wellId = req2.wellId)
    (hdiv1 : (wellChemicals s req1.wellId ++ [t1.chemicalType]).dedup.length ≤ 3)
    (hdiv2 : (wellChemicals s req2.wellId ++ [t2.chemicalType]).dedup.length ≤ 3) :
    handleAssociate s req1 =
      ({ s with associations := s.associations ++ [newAssociation req1] }, none) ∧
    handleAssociate { s with associations := s.associations ++ [newAssociation req1] } req2 =
      ({ s with associations :=
          s.associations ++ [newAssociation req1, newAssociation req2] }, none) := by
  have hacc1 : validateAssociationCreation s req1.wellId req1.tankId req1.pumpId = none :=
    validateAssociationCreation_accepts s _ _ _ w1 t1 hw1 ht1 hp hdiv1
  have hwch : wellChemicals
      { s with associations := s.associations ++ [newAssociation req1] } req2.wellId =
      wellChemicals s req2.wellId :=
    wellChemicals_append_other s (newAssociation req1) req2.wellId hwne
  have hacc2 : validateAssociationCreation
      { s with associations := s.associations ++ [newAssociation req1] }
      req2.wellId req2.tankId req2.pumpId = none := by
    refine validateAssociationCreation_accepts _ _ _ _ w2 t2 hw2 ht2 ?_ ?_
    · rw [hpump]; exact hp
    · rw [hwch]; exact hdiv2
  constructor
  · unfold handleAssociate
    rw [hacc1]
  · unfold handleAssociate
    rw [hacc2]
    rw [List.append_assoc]
    rfl

/-- C7 witness: in the initial state, creating `(W1, T2, PM1)` and then
`(W2, T1, PM1)` — both through pump `PM1` — succeeds twice and commits both
associations. -/
theorem pump_sharing_permitted_witness :
    handleAssociate initialState reqB1 =
      ({ initialState with
         associations := initialState.associations ++ [newAssociation reqB1] }, none) ∧
    handleAssociate
      { initialState with
        associations := initialState.associations ++ [newAssociation reqB1] } reqB2 =
      ({ initialState with
         associations := initialState.associations ++
           [newAssociation reqB1, newAssociation reqB2] }, none) :=
  pump_sharing_permitted initialState reqB1 reqB2
    { id := "W1", name := "Well-A1", siteId := "S1", productionRate := 500 }
    { id := "W2", name := "Well-A2", siteId := "S1", productionRate := 1200 }
    { id := "T2", name := "TK-102", siteId := "S1", capacity := 1500,
      material := "Polyethylene", currentVolume := 300,
      lastUpdated := "2024-01-01T00:00:00.000Z", chemicalType := "Corrosion Inhibitor" }
    { id := "T1", name := "TK-101", siteId := "S1", capacity := 2000,
      material := "Stainless Steel", currentVolume := 1200,
      lastUpdated := "2024-01-01T00:00:00.000Z", chemicalType := "Product A" }
    (by decide) (by decide) (by decide) (by decide) (by decide) (by decide)
    (by decide) (by decide) (by decide)

/-- C8: the estimated daily consumption of every well is its production
rate times the sum of `targetPpm` over exactly that well's `ACTIVE`
associations, divided by 10000; in particular a well of production rate 500
with two `ACTIVE` associations at 150 ppm and 50 ppm is estimated at 10
liters/day, also after display rounding. -/
theorem estConsumption_formula :
    (∀ (s : AppState) (w : Well),
      estConsumption s w =
        w.productionRate *
          (s.associations.map (fun a =>
            if a.wellId = w.id ∧ a.status = AssocStatus.ACTIVE
            then a.targetPpm else 0)).sum / 10000) ∧
    estConsumption consumptionState
      { id := "W1", name := "Well-A1", siteId := "S1", productionRate := 500 } = 10 ∧
    consumptionData consumptionState = [ { name := "Well-A1", consumption := 10 } ] := by
  have hmain : ∀ (s : AppState) (w : Well),
      estConsumption s w =
        w.productionRate *
          (s.associations.map (fun a =>
            if a.wellId = w.id ∧ a.status = AssocStatus.ACTIVE
            then a.targetPpm else 0)).sum / 10000 := by
    intro s w
    unfold estConsumption
    simp only []
    rw [foldl_add_targetPpm, zero_add, filter_targetPpm_sum]
  have h10 : estConsumption consumptionState
      { id := "W1", name := "Well-A1", siteId := "S1", productionRate := 500 } = 10 := by
    rw [hmain]
    norm_num [consumptionState, initialState]
  refine ⟨hmain, h10, ?_⟩
  unfold consumptionData
  have hwells : consumptionState.wells =
      [ { id := "W1", name := "Well-A1", siteId := "S1", productionRate := 500 } ] := rfl
  rw [hwells, List.map_cons, List.map_nil, h10]
  norm_num [round2, round_eq]

/-- C9: the advisory boundary always returns a string: either the generated
text of a successful call, or one of the three fixed fallback strings; a
missing credential yields the key fallback and a thrown transport/auth
failure is caught and yields the error fallback, so no failure propagates
to the caller. -/
theorem getSystemInsights_boundary :
    (∀ (tks : List Tank) (ws : List Well) (assocs : List Association)
        (apiKey : Option String) (c : Except String (Option String)),
      getSystemInsights tks ws assocs apiKey c = insightsNoKeyFallback ∨
      getSystemInsights tks ws assocs apiKey c = insightsErrorFallback ∨
      getSystemInsights tks ws assocs apiKey c = insightsEmptyFallback ∨
      ∃ t, c = Except.ok (some t) ∧ getSystemInsights tks ws assocs apiKey c = t) ∧
    (∀ tks ws assocs c,
      getSystemInsights tks ws assocs none c = insightsNoKeyFallback) ∧
    (∀ tks ws assocs k e, k ≠ "" →
      getSystemInsights tks ws assocs (some k) (Except.error e) = insightsErrorFallback) := by
  refine ⟨?_, ?_, ?_⟩
  · intro tks ws assocs apiKey c
    cases apiKey with
    | none => exact Or.inl rfl
    | some k =>
      by_cases hk : k = ""
      · exact Or.inl (by simp [getSystemInsights, hk])
      · cases c with
        | error e => exact Or.inr (Or.inl (by simp [getSystemInsights, hk]))
        | ok responseText =>
          cases responseText with
          | none => exact Or.inr (Or.inr (Or.inl (by simp [getSystemInsights, hk])))
          | some t =>
            by_cases htx : t = ""
            · exact Or.inr (Or.inr (Or.inl (by simp [getSystemInsights, hk, htx])))
            · exact Or.inr (Or.inr (Or.inr ⟨t, rfl, by simp [getSystemInsights, hk, htx]⟩))
  · intro tks ws assocs c
    rfl
  · intro tks ws assocs k e hk
    simp [getSystemInsights, hk]

/-- C9 witness: with a present credential and a throwing transport call the
boundary returns the fixed error fallback string. -/
theorem getSystemInsights_boundary_witness :
    getSystemInsights [] [] [] (some "key") (Except.error "network down") =
      insightsErrorFallback :=
  getSystemInsights_boundary.2.2 [] [] [] "key" "network down" (by decide)

/-- C10: an `ACTIVE` association whose `tankId` no longer resolves
contributes no chemical type to the interlock scan, so activating an
association drawing `Product C` is accepted whenever every other `ACTIVE`
association on the well has a dangling tank reference — even one whose
deleted tank used to hold Product A. -/
theorem toggle_dangling_tank_invisible
    (s : AppState) (b : Association) (tb : Tank)
    (hb : b.status = AssocStatus.INACTIVE)
    (hfb : s.tanks.find? (fun t => decide (t.id = b.tankId)) = some tb)
    (hchem : tb.chemicalType = "Product C")
    (hdang : ∀ a ∈ s.associations, a.wellId = b.wellId →
      a.status = AssocStatus.ACTIVE → a.id ≠ b.id →
      s.tanks.find? (fun t => decide (t.id = a.tankId)) = none) :
    validateToggleStatus s b = none := by
  have hbne : ¬ b.status = AssocStatus.ACTIVE := by rw [hb]; exact fun h => by cases h
  unfold validateToggleStatus
  rw [if_neg hbne, hfb]
  simp only []
  rw [if_neg]
  rintro ⟨hA, _⟩
  rcases hA with hA | hA
  · rcases List.mem_map.mp hA with ⟨a, hafil, hmap⟩
    rcases List.mem_filter.mp hafil with ⟨hamem, hprop⟩
    rcases of_decide_eq_true hprop with ⟨hw', hact', hid'⟩
    rw [hdang a hamem hw' hact' hid'] at hmap
    cases hmap
  · rw [hchem] at hA
    exact absurd hA (by decide)

/-- C10 witness: in `danglingState` the `ACTIVE` association `A9` on well
`W3` references the deleted tank `T1`, and activating the `INACTIVE`
Product C association `A10` on the same well is accepted. -/
theorem toggle_dangling_tank_invisible_witness :
    validateToggleStatus danglingState
      { id := "A10", wellId := "W3", tankId := "T3", pumpId := "PM3",
        targetPpm := 60, status := AssocStatus.INACTIVE } = none :=
  toggle_dangling_tank_invisible danglingState _
    { id := "T3", name := "TK-201", siteId := "S2", capacity := 5000,
      material := "Carbon Steel", currentVolume := 4500,
      lastUpdated := "2024-01-01T00:00:00.000Z", chemicalType := "Product C" }
    (by decide) (by decide) (by decide) (by decide)

end ChemFlow
